import Mathlib

/-!
Shallow embedding of `of/ofreg.py` (optical-flow registration pipeline for
ultrasound tongue imaging sessions), together with theorems checking the
natural-language specification against it.

Conventions of the embedding:
* Python floats are modelled as rationals (`ℚ`); all byte values appearing
  here (unsigned 8-bit samples) are exactly representable, and the spec's
  formulas are stated over exact arithmetic.
* numpy arrays are lists (row-major nesting); `np.linspace` is modelled by
  `linspace` / `linspace_open` below, following numpy's documented formula
  start + k * (stop - start) / div.
* Python exceptions are modelled with `Except PyErr`; an out-of-range numpy
  index raises `PyErr.indexError`, a failing `reshape` raises
  `PyErr.valueError`, division by zero raises `PyErr.zeroDivisionError`.
* External library callables with no source in this repository (the scipy
  bilinear interpolant returned by `interpolate.interp2d`, the DIPY solver
  `sdr.optimize`, the Python `int()` / `float()` string parsers) are taken
  as *parameters* of the embedded functions; the repository's own code is
  translated faithfully around them.
-/

deriving instance DecidableEq for Except

namespace OfReg

/-- Runtime errors of the Python fragments modelled here.  The string names
the array or operation involved, the number the offending index. -/
inductive PyErr where
  | indexError (arr : String) (idx : Nat)
  | valueError (op : String)
  | zeroDivisionError
  deriving DecidableEq

/-- np.linspace with endpoint=True (the default): n points
a + k * (b - a) / (n - 1).  For n = 1 numpy returns [a]; with rational
division by zero evaluating to 0 the same formula yields [a], so no special
case is needed. -/
def linspace (a b : ℚ) (n : Nat) : List ℚ :=
  (List.range n).map (fun k : Nat => a + (k : ℚ) * (b - a) / ((n : ℚ) - 1))

/-- np.linspace with endpoint=False: n points a + k * (b - a) / n. -/
def linspace_open (a b : ℚ) (n : Nat) : List ℚ :=
  (List.range n).map (fun k : Nat => a + (k : ℚ) * (b - a) / (n : ℚ))

theorem linspace_length (a b : ℚ) (n : Nat) : (linspace a b n).length = n := by
  rw [linspace, List.length_map, List.length_range]

theorem linspace_open_length (a b : ℚ) (n : Nat) :
    (linspace_open a b n).length = n := by
  rw [linspace_open, List.length_map, List.length_range]

/-! ## Frame Decoder (ofreg.py lines 180-188)

    ultra = np.fromstring(ult_data, dtype=np.uint8)
    ultra = ultra.astype("float32")
    ult_no_frames = int(len(ultra) / (ult_NumVectors * ult_PixPerVector))
    ultra = ultra.reshape((ult_no_frames, ult_NumVectors, ult_PixPerVector))

`buf` is the byte buffer (each entry a uint8 sample).  `int(len / x)` is
float division truncated, i.e. `len / x` on naturals; `x = 0` raises
ZeroDivisionError in Python.  numpy `reshape` raises ValueError unless the
target shape has exactly the array's element count. -/

/-- The reshaped frame volume: entry (f, v, p) is the byte at row-major flat
index f * (V * P) + v * P + p, cast to floating point. -/
def reshape3 (buf : List Nat) (n V P : Nat) : List (List (List ℚ)) :=
  (List.range n).map (fun f =>
    (List.range V).map (fun v =>
      (List.range P).map (fun p =>
        ((buf.getD (f * (V * P) + v * P + p) 0 : Nat) : ℚ))))

/-- Frame decoding as performed inside compute. -/
def decode_ult (buf : List Nat) (V P : Nat) : Except PyErr (List (List (List ℚ))) :=
  if V * P = 0 then
    .error .zeroDivisionError
  else
    let ult_no_frames := buf.length / (V * P)
    if ult_no_frames * (V * P) = buf.length then
      .ok (reshape3 buf ult_no_frames V P)
    else
      .error (.valueError "reshape")

/-! ## Time Alignment (ofreg.py lines 273-277)

    ultra_time = np.linspace(0, ult_no_frames, ult_no_frames, endpoint=False) / ult_fps
    ultra_time = ultra_time + ult_TimeInSecOfFirstFrame + .5 / ult_fps
    ult_wav_time = np.linspace(0, len(ult_wav_frames), len(ult_wav_frames), endpoint=False) / ult_wav_fs
-/

def ultra_time_vec (n : Nat) (fps t0 : ℚ) : List ℚ :=
  ((linspace_open 0 n n).map (fun x => x / fps)).map
    (fun x => x + t0 + 1 / 2 / fps)

def wav_time_vec (m : Nat) (fs : ℚ) : List ℚ :=
  (linspace_open 0 m m).map (fun x => x / fs)

/-! ## Isometric Resampler (ofreg.py lines 199-219)

    probe_array_length_mm = 40
    probe_array_depth_mm = ult_PixPerVector / ult_PixelsPerMm
    length_depth_ratio = probe_array_depth_mm / probe_array_length_mm
    x = np.linspace(1, ult_NumVectors, ult_NumVectors)
    y = np.linspace(1, ult_PixPerVector, ult_PixPerVector)
    xnew = np.linspace(1, ult_NumVectors, ult_NumVectors * 2)
    ynew = np.linspace(1, ult_PixPerVector, math.ceil(ult_NumVectors * length_depth_ratio) * 2)
    for fIdx in range(0, ult_no_frames):
        f = interpolate.interp2d(x, y, np.transpose(ultra[fIdx, :, :]), kind="linear")
        ultra_interp.append(f(xnew, ynew))

The scipy bilinear interpolant built from a frame is external library code;
it is modelled by a parameter fr_interp : frame -> (x-coordinate ->
y-coordinate -> value).  Evaluating a scipy interp2d interpolant on
coordinate vectors xs, ys returns a 2-D array of shape (len ys, len xs)
whose (j, i) entry is the value at (xs i, ys j). -/

/-- Evaluation of a scipy interp2d interpolant f on a coordinate grid:
result shape (ys.length, xs.length). -/
def interp2d_eval (f : ℚ → ℚ → ℚ) (xs ys : List ℚ) : List (List ℚ) :=
  ys.map (fun yv => xs.map (fun xv => f xv yv))

def length_depth_ratio (P : Nat) (pmm : ℚ) : ℚ :=
  ((P : ℚ) / pmm) / 40

/-- Resampling of one frame, with the interpolant built from the frame
supplied as f.  The target grid doubles the vector axis and sizes the
other axis as ceil(V * ratio) * 2. -/
def resample_frame (f : ℚ → ℚ → ℚ) (V P : Nat) (pmm : ℚ) : List (List ℚ) :=
  let xnew := linspace 1 (V : ℚ) (V * 2)
  let ynew := linspace 1 (P : ℚ) (⌈(V : ℚ) * length_depth_ratio P pmm⌉₊ * 2)
  interp2d_eval f xnew ynew

/-- The per-frame resampling loop: one resampled image per input frame. -/
def resample_all (fr_interp : List (List ℚ) → ℚ → ℚ → ℚ)
    (frames : List (List (List ℚ))) (V P : Nat) (pmm : ℚ) : List (List (List ℚ)) :=
  frames.map (fun fr => resample_frame (fr_interp fr) V P pmm)

/-! ## Registration Engine configuration (ofreg.py lines 231-240)

    level_iters = [200, 100, 50, 25]
    sigma_diff = 3.0
    radius = 2
    metric = CCMetric(2, sigma_diff, radius)
    sdr = SymmetricDiffeomorphicRegistration(metric, level_iters, inv_iter=100)
-/

/-- The similarity-metric constructors imported from dipy.align.metrics:
SSDMetric (sum of squared differences), CCMetric (cross-correlation),
EMMetric (expectation-maximisation). -/
inductive MetricKind where
  | SSD
  | CC
  | EM
  deriving DecidableEq

structure RegMetric where
  kind : MetricKind
  dim : Nat
  sigma_diff : ℚ
  radius : Nat
  deriving DecidableEq

structure SDRConfig where
  metric : RegMetric
  level_iters : List Nat
  inv_iter : Nat
  deriving DecidableEq

def level_iters : List Nat := [200, 100, 50, 25]

def metric : RegMetric := { kind := .CC, dim := 2, sigma_diff := 3, radius := 2 }

def sdr : SDRConfig := { metric := metric, level_iters := level_iters, inv_iter := 100 }

/-! ## Registration loop (ofreg.py lines 243-256)

    ofdisp = []
    ult_no_frames = 3
    for fIdx in range(ult_no_frames - 1):
        current_im = ultra_interp[fIdx]
        next_im = ultra_interp[fIdx + 1]
        mapping = sdr.optimize(next_im, current_im)
        ofdisp.append(mapping)

Note that ult_no_frames is overwritten with the constant 3 before the loop,
so the loop always runs over fIdx = 0, 1 whatever the session length.  The
solver call sdr.optimize is external library code, modelled by the
parameter optimize; list indexing raises IndexError when out of range. -/
def registration_loop {Img Mapping : Type} (optimize : Img → Img → Mapping)
    (ultra_interp : List Img) : Except PyErr (List Mapping) :=
  (List.range (3 - 1)).foldlM
    (fun ofdisp fIdx =>
      match ultra_interp.get? fIdx with
      | none => .error (.indexError "ultra_interp" fIdx)
      | some current_im =>
        match ultra_interp.get? (fIdx + 1) with
        | none => .error (.indexError "ultra_interp" (fIdx + 1))
        | some next_im => .ok (ofdisp ++ [optimize next_im current_im]))
    []

/-! ## Metadata Reader (ofreg.py lines 83-95, function _parse_ult_meta)

    for line in metafile:
        (key, value_str) = line.split("=")
        try:
            value = int(value_str)
        except ValueError:
            value = float(value_str)
        meta[key] = value

Python's int() and float() string parsers are external builtins, modelled
by the parameters pyInt and pyFloat (returning none on ValueError).  A line
that does not split into exactly two parts fails tuple unpacking; a value
neither parser accepts propagates the float ValueError.  The dict built in
line order is modelled as the list of (key, value) pairs in line order. -/

/-- A Python numeric value: an int, or a float (modelled as ℚ). -/
inductive PyNum where
  | int (n : Int)
  | float (q : ℚ)
  deriving DecidableEq

/-- Splitting a character list at every occurrence of a separator. -/
def splitOnCharList (c : Char) : List Char → List (List Char)
  | [] => [[]]
  | x :: xs =>
    let r := splitOnCharList c xs
    if x = c then [] :: r
    else
      match r with
      | [] => [[x]]
      | y :: ys => (x :: y) :: ys

/-- Python str.split(sep) for a one-character separator: the pieces of the
string between occurrences of the separator. -/
def py_split (c : Char) (s : String) : List String :=
  (splitOnCharList c s.toList).map List.asString

/-- One iteration of the metadata loop body, none on an uncaught error. -/
def parse_meta_line (pyInt : String → Option Int) (pyFloat : String → Option ℚ)
    (line : String) : Option (String × PyNum) :=
  match py_split '=' line with
  | [key, value_str] =>
    match pyInt value_str with
    | some n => some (key, .int n)
    | none =>
      match pyFloat value_str with
      | some q => some (key, .float q)
      | none => none
  | _ => none

/-- Source name _parse_ult_meta; the file is given as its list of lines. -/
def parse_ult_meta (pyInt : String → Option Int) (pyFloat : String → Option ℚ)
    (lines : List String) : Option (List (String × PyNum)) :=
  lines.mapM (parse_meta_line pyInt pyFloat)

/-! ## Session Discoverer (ofreg.py lines 109-168, get_data_from_dir)

A directory is modelled as its file listing plus, for each prompt file, the
result of read_prompt on it (read_prompt itself is three lines of file
I/O plus datetime.strptime, an external parser; the recording date is
modelled as a Nat so that the final sort by date is order-preserving).
glob(directory + "/*US.txt") is the listing filtered by the suffix
"US.txt"; glob(directory + "/*.txt") by the suffix ".txt"; os.path.isfile
is membership in the listing. -/

structure Dir where
  files : List String
  /-- read_prompt: (prompt, date, participant) for a prompt file. -/
  read_prompt : String → String × Nat × String

def isfile (d : Dir) (name : String) : Bool :=
  d.files.elem name

/-- Python sorted() on file name lists. -/
def sortStr (l : List String) : List String :=
  l.mergeSort (fun a b => decide (a ≤ b))

def ult_meta_files (d : Dir) : List String :=
  sortStr (d.files.filter (fun f => f.endsWith "US.txt"))

def ult_prompt_files (d : Dir) : List String :=
  sortStr ((d.files.filter (fun f => f.endsWith ".txt")).filter
    (fun pf => !(ult_meta_files d).elem pf))

/-- os.path.splitext(s)[0]: the name with its last extension dropped.  The
names this is applied to are glob results "directory/...txt", which always
contain a dot in a nonempty final component, the only case exercised. -/
def splitext (s : String) : String :=
  match s.splitOn "." with
  | [_] => s
  | parts => String.intercalate "." parts.dropLast

/-- One session descriptor (one meta[i] dict).  Keys the code only sets
conditionally are Options; the excluded key, absent unless some companion
file is missing, is a Bool that is false when the key would be absent. -/
structure SessionMeta where
  filebase : String
  ult_prompt_file : String
  prompt : String
  date : Nat
  participant : String
  ult_meta_file : Option String
  ult_meta_exists : Bool
  ult_wav_file : Option String
  ult_wav_exists : Bool
  ult_file : Option String
  ult_exists : Bool
  excluded : Bool
  deriving DecidableEq

/-- The body of the for-loop of get_data_from_dir for one prompt file:
derive the file base, read the prompt, build the three candidate companion
names, record existence flags, and set excluded when any is missing. -/
def buildMeta (d : Dir) (pf : String) : SessionMeta :=
  let fb := splitext pf
  let ult_meta_file := fb ++ "US.txt"
  let ult_wav_file := fb ++ ".wav"
  let ult_file := fb ++ ".ult"
  let metaE := isfile d ult_meta_file
  let wavE := isfile d ult_wav_file
  let ultE := isfile d ult_file
  { filebase := fb
    ult_prompt_file := pf
    prompt := (d.read_prompt pf).1
    date := (d.read_prompt pf).2.1
    participant := (d.read_prompt pf).2.2
    ult_meta_file := if metaE then some ult_meta_file else none
    ult_meta_exists := metaE
    ult_wav_file := if wavE then some ult_wav_file else none
    ult_wav_exists := wavE
    ult_file := if ultE then some ult_file else none
    ult_exists := ultE
    excluded := !metaE || !wavE || !ultE }

/-- get_data_from_dir: one descriptor per prompt file, sorted by date. -/
def get_data_from_dir (d : Dir) : List SessionMeta :=
  ((ult_prompt_files d).map (buildMeta d)).mergeSort
    (fun a b => decide (a.date ≤ b.date))

/-- All three companion files of a prompt file exist in the directory. -/
def companions_exist (d : Dir) (pf : String) : Bool :=
  isfile d (splitext pf ++ "US.txt") && isfile d (splitext pf ++ ".wav")
    && isfile d (splitext pf ++ ".ult")

/-! ## The pipeline function compute (ofreg.py lines 171-285)

Parameters stand for the inputs compute reads through I/O or external
libraries: wav_len and wav_fs for read_wav (sample count and sample rate),
V, P, pmm, fps, t0 for read_ult_meta (NumVectors, PixPerVector,
PixelsPerMm, FramesPerSec, TimeInSecsOfFirstFrame), buf for the bytes of
the .ult file, fr_interp for scipy interp2d interpolant construction from
a frame, optimize for sdr.optimize.  Plotting and logging calls have no
effect on the data flow and are omitted; the two indexing effects on the
data path that can raise are kept: ultra[1, :, :] at line 208 and
ofdisp[1].forward at line 270. -/

structure OutputBundle (Mapping : Type) where
  of : List Mapping
  frames : List (List (List ℚ))
  ult_time : List ℚ
  wav_time : List ℚ
  deriving DecidableEq

/-- What running compute produces: the dict assembled in its last lines,
and the value the function returns to its caller.  compute ends with
print("toast") and has no return statement, so ret is always none. -/
structure ComputeOutcome (Mapping : Type) where
  data : OutputBundle Mapping
  ret : Option (OutputBundle Mapping)
  deriving DecidableEq

def compute {Mapping : Type} (fr_interp : List (List ℚ) → ℚ → ℚ → ℚ)
    (optimize : List (List ℚ) → List (List ℚ) → Mapping)
    (wav_len : Nat) (wav_fs : ℚ) (V P : Nat) (pmm fps t0 : ℚ)
    (buf : List Nat) : Except PyErr (ComputeOutcome Mapping) := do
  let ultra ← decode_ult buf V P
  -- line 208: f = interpolate.interp2d(x, y, np.transpose(ultra[1, :, :]), ...)
  let _ ← (match ultra.get? 1 with
    | none => Except.error (PyErr.indexError "ultra" 1)
    | some _ => Except.ok ())
  let ultra_interp := resample_all fr_interp ultra V P pmm
  let ofdisp ← registration_loop optimize ultra_interp
  -- line 270: plt.quiver(xx, yy, ofdisp[1].forward[:, :, 0], ofdisp[1].forward[:, :, 1])
  let _ ← (match ofdisp.get? 1 with
    | none => Except.error (PyErr.indexError "ofdisp" 1)
    | some _ => Except.ok ())
  -- ult_no_frames still holds the constant 3 assigned before the loop
  let ult_no_frames := 3
  let data : OutputBundle Mapping :=
    { of := ofdisp
      frames := ultra
      ult_time := ultra_time_vec ult_no_frames fps t0
      wav_time := wav_time_vec wav_len wav_fs }
  return { data := data, ret := none }

/-- A trivial stand-in interpolant constructor, for concrete evaluations. -/
def c_fr_interp : List (List ℚ) → ℚ → ℚ → ℚ := fun _ _ _ => 0

/-- A stand-in solver recording its argument pair, for concrete evaluations. -/
def c_optimize : List (List ℚ) → List (List ℚ) → List (List ℚ) × List (List ℚ) :=
  fun nxt cur => (nxt, cur)

/-- A concrete stand-in for the Python int() string parser. -/
def pyInt0 : String → Option Int :=
  fun s => if s = "3" then some 3 else none

/-- A concrete stand-in for the Python float() string parser. -/
def pyFloat0 : String → Option ℚ :=
  fun s => if s = "q" then some 7 else none

/-!  # Theorems  -/

/-- C4: the solver is invoked once per consecutive frame pair, as
(next frame, current frame), mappings accumulate in sequence order, and
the loop is hard-limited to the first three frames no matter how long the
resampled sequence is, so exactly two displacement entries result. -/
theorem registration_first_three_only {Img Mapping : Type}
    (optimize : Img → Img → Mapping) (ultra_interp : List Img)
    (i0 i1 i2 : Img) (rest : List Img)
    (h : ultra_interp = i0 :: i1 :: i2 :: rest) :
    registration_loop optimize ultra_interp
      = .ok [optimize i1 i0, optimize i2 i1] := by
  subst h
  rfl

theorem registration_first_three_only_witness :
    registration_loop (fun a b : Nat => (a, b)) [10, 20, 30, 40]
      = .ok [(20, 10), (30, 20)] :=
  registration_first_three_only (fun a b : Nat => (a, b)) _ 10 20 30 [40] rfl

/-- C5 counterexample: the similarity metric the code constructs is the
cross-correlation metric CCMetric, not one of the sum-of-squared-
differences family. -/
theorem sdr_metric_is_not_ssd : sdr.metric.kind ≠ MetricKind.SSD := by
  decide

/-- C5 (amended): the solver is always configured with a 4-level pyramid
with iteration counts 200/100/50/25, a cross-correlation metric with
smoothing parameter 3.0 and neighborhood radius 2 over 2-D images, and a
symmetric diffeomorphic solver with 100 inverse iterations. -/
theorem sdr_configuration :
    sdr.level_iters = [200, 100, 50, 25] ∧ sdr.level_iters.length = 4 ∧
    sdr.metric.kind = MetricKind.CC ∧ sdr.metric.dim = 2 ∧
    sdr.metric.sigma_diff = 3 ∧ sdr.metric.radius = 2 ∧ sdr.inv_iter = 100 := by
  decide

/-- C7: resampling a (V, P) frame with pixel density pmm yields an image
with ceil(V * ((P / pmm) / 40)) * 2 rows, each of V * 2 columns, and the
resampling loop yields one image per input frame. -/
theorem resample_frame_shape (f : ℚ → ℚ → ℚ)
    (fr_interp : List (List ℚ) → ℚ → ℚ → ℚ)
    (frames : List (List (List ℚ))) (V P : Nat) (pmm : ℚ) :
    (resample_frame f V P pmm).length = ⌈(V : ℚ) * (((P : ℚ) / pmm) / 40)⌉₊ * 2 ∧
    (resample_frame f V P pmm).all (fun row => row.length == V * 2) ∧
    (resample_all fr_interp frames V P pmm).length = frames.length := by
  refine ⟨?_, ?_, ?_⟩
  · rw [resample_frame, interp2d_eval, List.length_map, linspace_length,
      length_depth_ratio]
  · rw [resample_frame, interp2d_eval, List.all_eq_true]
    intro row hrow
    rw [List.mem_map] at hrow
    obtain ⟨yv, _, rfl⟩ := hrow
    simp [linspace_length]
  · rw [resample_all, List.length_map]

theorem reshape3_length (buf : List Nat) (n V P : Nat) :
    (reshape3 buf n V P).length = n := by
  rw [reshape3, List.length_map, List.length_range]

theorem range_map_get? {α : Type} (g : Nat → α) (n i : Nat) (h : i < n) :
    ((List.range n).map g).get? i = some (g i) := by
  rw [List.get?_map, List.get?_range h]
  rfl

theorem decode_ult_dvd (buf : List Nat) (V P : Nat) (hVP : 0 < V * P)
    (hdvd : (V * P) ∣ buf.length) :
    decode_ult buf V P = .ok (reshape3 buf (buf.length / (V * P)) V P) := by
  rw [decode_ult, if_neg hVP.ne', if_pos (Nat.div_mul_cancel hdvd)]

/-- C6: a buffer of exactly F * V * P unsigned 8-bit samples decodes to a
volume of shape (F, V, P) whose (f, v, p) entry is the byte at row-major
flat index f * (V * P) + v * P + p, cast to floating point. -/
theorem decode_exact_multiple (buf : List Nat) (V P F : Nat)
    (hV : 0 < V) (hP : 0 < P) (hlen : buf.length = F * V * P) :
    decode_ult buf V P = .ok (reshape3 buf F V P) ∧
    (reshape3 buf F V P).length = F ∧
    (reshape3 buf F V P).all
      (fun fr => fr.length == V && fr.all (fun row => row.length == P)) ∧
    ∀ f v p b, f < F → v < V → p < P →
      buf.get? (f * (V * P) + v * P + p) = some b →
      ((((reshape3 buf F V P).get? f).bind (fun fr => fr.get? v)).bind
        (fun row => row.get? p)) = some ((b : ℚ)) := by
  have hVP : 0 < V * P := Nat.mul_pos hV hP
  have hF : buf.length / (V * P) = F := by
    rw [hlen, Nat.mul_assoc, Nat.mul_div_cancel _ hVP]
  refine ⟨?_, reshape3_length buf F V P, ?_, ?_⟩
  · have hd := decode_ult_dvd buf V P hVP ⟨F, by rw [hlen, Nat.mul_assoc, Nat.mul_comm]⟩
    rw [hF] at hd
    exact hd
  · rw [List.all_eq_true]
    intro fr hfr
    rw [reshape3, List.mem_map] at hfr
    obtain ⟨f, _, rfl⟩ := hfr
    simp [List.all_eq_true, List.mem_map]
  · intro f v p b hf hv hp hb
    rw [reshape3, range_map_get? _ F f hf, Option.some_bind,
      range_map_get? _ V v hv, Option.some_bind, range_map_get? _ P p hp,
      List.getD_eq_get?, hb]
    rfl

theorem decode_exact_multiple_witness :
    0 < 1 ∧ ([7, 8] : List Nat).length = 2 * 1 * 1 ∧
    (decode_ult [7, 8] 1 1 = .ok (reshape3 [7, 8] 2 1 1) ∧
      (reshape3 [7, 8] 2 1 1).length = 2 ∧
      (reshape3 [7, 8] 2 1 1).all
        (fun fr => fr.length == 1 && fr.all (fun row => row.length == 1)) ∧
      ∀ f v p b, f < 2 → v < 1 → p < 1 →
        ([7, 8] : List Nat).get? (f * (1 * 1) + v * 1 + p) = some b →
        ((((reshape3 [7, 8] 2 1 1).get? f).bind (fun fr => fr.get? v)).bind
          (fun row => row.get? p)) = some ((b : ℚ))) :=
  ⟨by decide, by decide,
    decode_exact_multiple [7, 8] 1 1 2 (by decide) (by decide) (by decide)⟩

/-- C3 counterexample: a 5-byte buffer with vectors = 2 and
pixels-per-vector = 2 (5 not a multiple of 4) does not complete decoding
silently; the reshape signals an error. -/
theorem decode_nonmultiple_cex :
    decode_ult [0, 0, 0, 0, 0] 2 2 = .error (.valueError "reshape") := by
  decide

/-- C3 (amended): on a buffer whose byte count is not a multiple of
vectors * pixels-per-vector, the decoder computes the frame count by
truncating integer division, but the subsequent reshape of the full buffer
then signals an error (the element count no longer matches the target
shape), so decoding fails rather than completing with silent truncation. -/
theorem decode_nonmultiple_errors (buf : List Nat) (V P : Nat)
    (hVP : 0 < V * P) (hnd : ¬ (V * P) ∣ buf.length) :
    decode_ult buf V P = .error (.valueError "reshape") := by
  rw [decode_ult, if_neg hVP.ne', if_neg]
  intro h
  refine hnd ⟨buf.length / (V * P), ?_⟩
  rw [Nat.mul_comm]
  exact h.symm

theorem linspace_open_get? (a b : ℚ) (n k : Nat) (h : k < n) :
    (linspace_open a b n).get? k = some (a + (k : ℚ) * (b - a) / (n : ℚ)) :=
  range_map_get? _ n k h

/-- C8: the k-th ultrasound frame time is t0 + k / fps + (1/2) / fps and
the j-th audio sample time is j / samplerate. -/
theorem time_vector_entries (n m : Nat) (fps t0 fs : ℚ) (k j : Nat)
    (hk : k < n) (hj : j < m) :
    (ultra_time_vec n fps t0).get? k = some (t0 + (k : ℚ) / fps + 1 / 2 / fps) ∧
    (wav_time_vec m fs).get? j = some ((j : ℚ) / fs) := by
  have hn : (n : ℚ) ≠ 0 := Nat.cast_ne_zero.mpr (Nat.zero_lt_of_lt hk).ne'
  have hm : (m : ℚ) ≠ 0 := Nat.cast_ne_zero.mpr (Nat.zero_lt_of_lt hj).ne'
  constructor
  · rw [ultra_time_vec, List.get?_map, List.get?_map, linspace_open_get? 0 n n k hk]
    have hv : (0 : ℚ) + (k : ℚ) * ((n : ℚ) - 0) / (n : ℚ) = (k : ℚ) := by
      rw [zero_add, sub_zero, mul_div_assoc, div_self hn, mul_one]
    rw [hv]
    simp only [Option.map_some']
    exact congrArg some (by ring)
  · rw [wav_time_vec, List.get?_map, linspace_open_get? 0 m m j hj]
    have hv : (0 : ℚ) + (j : ℚ) * ((m : ℚ) - 0) / (m : ℚ) = (j : ℚ) := by
      rw [zero_add, sub_zero, mul_div_assoc, div_self hm, mul_one]
    rw [hv]
    rfl

theorem time_vector_entries_witness :
    2 < 3 ∧ 1 < 2 ∧
    ((ultra_time_vec 3 60 (1 / 10)).get? 2
        = some (1 / 10 + (2 : ℚ) / 60 + 1 / 2 / 60) ∧
      (wav_time_vec 2 8).get? 1 = some ((1 : ℚ) / 8)) :=
  ⟨by decide, by decide,
    time_vector_entries 3 2 60 (1 / 10) 8 2 1 (by decide) (by decide)⟩

theorem mapM_option_get? {α β : Type} (f : α → Option β) (l : List α)
    (res : List β) (h : l.mapM f = some res) :
    ∀ i a, l.get? i = some a → res.get? i = f a := by
  induction l generalizing res with
  | nil =>
    intro i a ha
    simp at ha
  | cons x xs ih =>
    rw [List.mapM_cons] at h
    cases hx : f x with
    | none => rw [hx] at h; simp at h
    | some b =>
      rw [hx] at h
      cases hxs : xs.mapM f with
      | none => rw [hxs] at h; simp at h
      | some bs =>
        rw [hxs] at h
        simp at h
        subst h
        intro i a ha
        cases i with
        | zero =>
          simp only [List.get?_cons_zero, Option.some.injEq] at ha
          subst ha
          exact hx.symm
        | succ i =>
          simp only [List.get?_cons_succ] at ha ⊢
          exact ih bs hxs i a ha

/-- C9: the metadata reader maps the value of each line whose value text
the int parser accepts to that integer, and the value of each line the int
parser rejects but the float parser accepts to that float. -/
theorem metadata_value_types (pyInt : String → Option Int)
    (pyFloat : String → Option ℚ) (lines : List String)
    (meta : List (String × PyNum)) (i : Nat) (l key v : String)
    (hp : parse_ult_meta pyInt pyFloat lines = some meta)
    (hl : lines.get? i = some l) (hs : py_split '=' l = [key, v]) :
    (∀ n, pyInt v = some n → meta.get? i = some (key, PyNum.int n)) ∧
    (pyInt v = none → ∀ q, pyFloat v = some q →
      meta.get? i = some (key, PyNum.float q)) := by
  have hline : meta.get? i = parse_meta_line pyInt pyFloat l :=
    mapM_option_get? _ lines meta hp i l hl
  constructor
  · intro n hn
    rw [hline]
    simp [parse_meta_line, hs, hn]
  · intro hn q hq
    rw [hline]
    simp [parse_meta_line, hs, hn, hq]

theorem metadata_value_types_witness :
    parse_ult_meta pyInt0 pyFloat0 ["a=3", "b=q"]
        = some [("a", PyNum.int 3), ("b", PyNum.float 7)] ∧
    (pyInt0 "q" = none → ∀ q, pyFloat0 "q" = some q →
      [("a", PyNum.int 3), ("b", PyNum.float 7)].get? 1
        = some ("b", PyNum.float q)) :=
  ⟨by decide,
    (metadata_value_types pyInt0 pyFloat0 ["a=3", "b=q"]
      [("a", PyNum.int 3), ("b", PyNum.float 7)] 1 "b=q" "b" "q"
      (by decide) (by decide) (by decide)).2⟩

theorem buildMeta_ult_prompt_file (d : Dir) (pf : String) :
    (buildMeta d pf).ult_prompt_file = pf := rfl

theorem buildMeta_excluded (d : Dir) (pf : String) :
    (buildMeta d pf).excluded = !companions_exist d pf := by
  show (!isfile d (splitext pf ++ "US.txt") || !isfile d (splitext pf ++ ".wav")
      || !isfile d (splitext pf ++ ".ult"))
    = !(isfile d (splitext pf ++ "US.txt") && isfile d (splitext pf ++ ".wav")
      && isfile d (splitext pf ++ ".ult"))
  cases isfile d (splitext pf ++ "US.txt") <;>
    cases isfile d (splitext pf ++ ".wav") <;>
    cases isfile d (splitext pf ++ ".ult") <;> rfl

/-- C2: discovery over a directory yields one descriptor per prompt file
(N prompt files yield N descriptors), exactly those whose three companion
files all exist are not marked excluded (M descriptors), and every
descriptor, in particular one whose prompt file has no companions at all,
carries an excluded mark that is the negation of its companions'
existence. -/
theorem discovery_counts (d : Dir) :
    (get_data_from_dir d).length = (ult_prompt_files d).length ∧
    ((get_data_from_dir d).filter (fun m => !m.excluded)).length
      = ((ult_prompt_files d).filter (fun pf => companions_exist d pf)).length ∧
    (get_data_from_dir d).all
      (fun m => (!m.excluded) == companions_exist d m.ult_prompt_file) := by
  have hperm : (get_data_from_dir d).Perm
      ((ult_prompt_files d).map (buildMeta d)) :=
    List.mergeSort_perm _ _
  refine ⟨?_, ?_, ?_⟩
  · rw [hperm.length_eq, List.length_map]
  · rw [← List.countP_eq_length_filter, ← List.countP_eq_length_filter,
      hperm.countP_eq, List.countP_map]
    apply List.countP_congr
    intro pf _
    simp only [Function.comp_apply, buildMeta_excluded, Bool.not_not]
  · rw [List.all_eq_true]
    intro m hm
    rw [hperm.mem_iff, List.mem_map] at hm
    obtain ⟨pf, _, rfl⟩ := hm
    rw [buildMeta_ult_prompt_file, buildMeta_excluded, Bool.not_not]
    exact beq_self_eq_true _

theorem decode_nonmultiple_errors_witness :
    0 < 3 * 2 ∧ ¬ (3 * 2) ∣ ([1, 2, 3, 4, 5, 6, 7] : List Nat).length ∧
    decode_ult [1, 2, 3, 4, 5, 6, 7] 3 2 = .error (.valueError "reshape") :=
  ⟨by decide, by decide,
    decode_nonmultiple_errors [1, 2, 3, 4, 5, 6, 7] 3 2 (by decide) (by decide)⟩

/-- C1: on a complete 3-frame session, compute assembles the output bundle
(two displacement fields, the three-frame decoded volume, both time
vectors) in its local variable data, but the value it returns to its
caller is None: the function ends in print("toast") with no return
statement, so the bundle never reaches the caller. -/
theorem compute_assembles_bundle_but_returns_none :
    Except.map (fun o => o.ret.isNone)
      (compute c_fr_interp c_optimize 2 8 1 1 1 60 (1 / 10) [5, 6, 7])
      = .ok true ∧
    Except.map
      (fun o => (o.data.of.length, o.data.frames.length,
        o.data.ult_time.length, o.data.wav_time.length))
      (compute c_fr_interp c_optimize 2 8 1 1 1 60 (1 / 10) [5, 6, 7])
      = .ok (2, 3, 3, 2) :=
  ⟨by decide, by decide⟩

/-- C10 counterexample: a session whose raw file decodes to a single frame
does not fail on an out-of-range access into the resampled sequence: it
fails earlier, on the decoded frame volume itself (ultra[1, :, :] while
building the initial interpolant at line 208), so the resampled sequence
is never indexed for that session. -/
theorem compute_one_frame_fails_on_raw_volume :
    compute c_fr_interp c_optimize 2 8 1 1 1 60 (1 / 10) [5]
      = .error (.indexError "ultra" 1) := by
  decide

/-- C10 (amended): a session decoding to fewer than 3 frames always fails
with an index error; with exactly 2 frames the registration loop reads the
resampled sequence at index 2, past its end, while with 0 or 1 frames the
earlier raw-volume access ultra[1] fails before any resampled frame is
touched. -/
theorem compute_short_session_fails {Mapping : Type}
    (fr_interp : List (List ℚ) → ℚ → ℚ → ℚ)
    (optimize : List (List ℚ) → List (List ℚ) → Mapping)
    (wav_len : Nat) (wav_fs : ℚ) (V P : Nat) (pmm fps t0 : ℚ)
    (buf : List Nat) (hVP : 0 < V * P) (hdvd : (V * P) ∣ buf.length)
    (hlt : buf.length / (V * P) < 3) :
    compute fr_interp optimize wav_len wav_fs V P pmm fps t0 buf
      = .error (if buf.length / (V * P) ≤ 1 then .indexError "ultra" 1
          else .indexError "ultra_interp" 2) := by
  have hd := decode_ult_dvd buf V P hVP hdvd
  have h3' : ∀ q : Nat, q < 3 → q = 0 ∨ q = 1 ∨ q = 2 := by omega
  rcases h3' _ hlt with h | h | h <;> rw [compute, hd, h] <;> rfl

theorem compute_short_session_fails_witness :
    0 < 1 * 1 ∧ (1 * 1) ∣ ([5, 6] : List Nat).length ∧
    ([5, 6] : List Nat).length / (1 * 1) < 3 ∧
    compute c_fr_interp c_optimize 2 8 1 1 1 60 (1 / 10) [5, 6]
      = .error (if ([5, 6] : List Nat).length / (1 * 1) ≤ 1
          then .indexError "ultra" 1 else .indexError "ultra_interp" 2) :=
  ⟨by decide, by decide, by decide,
    compute_short_session_fails c_fr_interp c_optimize 2 8 1 1 1 60 (1 / 10)
      [5, 6] (by decide) (by decide) (by decide)⟩

end OfReg
